import Mathlib

/-!
# Verification of the lumina deck-export / thumbnail pipeline

Shallow embedding of the thumbnail-generation, debounced-regeneration,
step-deletion, export-rendering and position-clamping code of the
`lumina` backend (files `backend/app/utils/deck_thumbnail.py`,
`backend/app/utils/export.py`, `backend/app/api/v1/endpoints/steps.py`),
together with theorems settling the frozen claims about that code.

Conventions of the embedding:
* Python strings are Lean `String`s; character-level operations work on
  `String.data` (`List Char`).  Python's `str.lower` / `str.strip` are
  modelled on ASCII, which covers every input the claims touch.
* The document store (`Deck.get`, `Step.find`, `save`, `delete`) is
  modelled as an explicit `Repo` value threaded through the functions.
* The asset store (MinIO `upload_file` / `get_presigned_url`) is an
  external collaborator; its presigned URL is modelled as a
  deterministic function of the object key.
* Network fetches (`httpx.AsyncClient.get`) are modelled by a function
  `fetch : String → Option HttpResponse`; `none` models a raised
  exception (connection error or timeout), which the source catches
  with a bare `except`.
* Python `float` is modelled by `PyFloat` (`nan`, the two infinities,
  or an exact rational value); the arithmetic the claims touch
  (comparison, `min`/`max`, division by the power of two 1024) is
  exact on floats, so the rational model is faithful.
* The cooperative asyncio scheduler is modelled as a step relation on
  an explicit state (`SchedState`), see the Scheduler section.
-/

namespace Lumina

/-! ## Python string primitives -/

/-- Python substring test `needle in hay`, on character lists. -/
def hasSub (needle : List Char) : List Char → Bool
  | [] => needle.isEmpty
  | c :: cs => needle.isPrefixOf (c :: cs) || hasSub needle cs

/-- Python `needle in hay` on strings. -/
def strIn (needle hay : String) : Bool := hasSub needle.data hay.data

/-- Python `str.lower` (ASCII model). -/
def pyLower (s : String) : String := String.mk (s.data.map Char.toLower)

/-- Python whitespace characters stripped by `str.strip()` (ASCII set). -/
def isPySpace (c : Char) : Bool :=
  (c == ' ') || (c == Char.ofNat 9) || (c == Char.ofNat 10) ||
  (c == Char.ofNat 13) || (c == Char.ofNat 11) || (c == Char.ofNat 12)

/-- Python `str.strip()` on character lists. -/
def pyStripL (l : List Char) : List Char :=
  ((l.dropWhile isPySpace).reverse.dropWhile isPySpace).reverse

/-- Python `str.strip()`. -/
def pyStrip (s : String) : String := String.mk (pyStripL s.data)

/-- Python slicing `s[:n]`. -/
def pyTake (n : Nat) (s : String) : String := String.mk (s.data.take n)

/-!
## The tag-stripping regex of `generate_deck_thumbnail`

`re.sub('<[^<]+?>', '', html)` (deck_thumbnail.py line 46).  A match is
a `<`, then one or more characters none of which is `<` (the `+?` is
non-greedy, so the repetition stops at the first possible `>`), then a
`>`.  `re.sub` replaces non-overlapping matches scanning left to right;
where no match starts, the character is kept and scanning moves on by
one.
-/

/-- After `<` and one non-`<` character: scan for the first `>`,
failing if a `<` (or the end of input) intervenes.  Returns the
remainder after the `>`. -/
def closeTag : List Char → Option (List Char)
  | [] => none
  | c :: cs => if c = '>' then some cs else if c = '<' then none else closeTag cs

/-- Attempt to complete a match of `[^<]+?>` at the position just after
a `<`: at least one non-`<` character, then (lazily) the first `>`. -/
def tagEnd : List Char → Option (List Char)
  | [] => none
  | c :: cs => if c = '<' then none else closeTag cs

/-- One `re.sub('<[^<]+?>', '', ·)` pass, with fuel (the fuel is set to
the input length, which suffices because every step consumes at least
one character). -/
def stripTagsGo : Nat → List Char → List Char
  | 0, l => l
  | _, [] => []
  | fuel + 1, c :: cs =>
    if c = '<' then
      match tagEnd cs with
      | some rest => stripTagsGo fuel rest
      | none => c :: stripTagsGo fuel cs
    else c :: stripTagsGo fuel cs

/-- `re.sub('<[^<]+?>', '', html)` — deck_thumbnail.py line 46. -/
def stripTags (s : String) : String := String.mk (stripTagsGo s.data.length s.data)

/-!
## Python floats

`PyFloat` models CPython `float`: NaN, the infinities, or a finite
value (held as an exact rational — comparisons and `min`/`max` on
floats are exact, so this is faithful for the clamping code).
-/

inductive PyFloat where
  | nan
  | inf
  | ninf
  | val (q : ℚ)
deriving DecidableEq, Repr

/-- Python `a < b` on floats.  Any comparison with NaN is false. -/
def PyFloat.lt : PyFloat → PyFloat → Bool
  | .nan, _ => false
  | _, .nan => false
  | .inf, _ => false
  | .ninf, .ninf => false
  | .ninf, _ => true
  | .val _, .inf => true
  | .val _, .ninf => false
  | .val a, .val b => decide (a < b)

/-- CPython `min(a, b)`: returns `b` exactly when `b < a`. -/
def pyMin (a b : PyFloat) : PyFloat := if PyFloat.lt b a then b else a

/-- CPython `max(a, b)`: returns `b` exactly when `a < b`. -/
def pyMax (a b : PyFloat) : PyFloat := if PyFloat.lt a b then b else a

/-- Python truthiness of a float: only `0.0` (and `-0.0`, the same
rational) is falsy; NaN and the infinities are truthy. -/
def PyFloat.truthy : PyFloat → Bool
  | .val q => decide (q ≠ 0)
  | _ => true

/-- Python `x or d` where `x` is an optional float (`None` and `0.0`
are falsy). -/
def pyOr (x : Option PyFloat) (d : PyFloat) : PyFloat :=
  match x with
  | none => d
  | some v => if v.truthy then v else d

/-!
## Data model

`Deck` and `Step` documents (backend/app/models/deck.py, step.py),
with the extra fields the endpoints and the export renderer read
(`font_family`, `data_autoplay` on steps; `data_autoplay`,
`data_max_scale`, `data_min_scale` on decks — declared in the API
schemas and written by the endpoints).  Fields never read by the code
under verification (timestamps, owner, visibility, preview url) are
omitted from the embedding.
-/

structure StepDoc where
  id : String
  deck_id : String
  user_id : String
  data_x : PyFloat := .val 0
  data_y : PyFloat := .val 0
  data_z : PyFloat := .val 0
  data_rotate : PyFloat := .val 0
  data_rotate_x : PyFloat := .val 0
  data_rotate_y : PyFloat := .val 0
  data_rotate_z : PyFloat := .val 0
  data_scale : PyFloat := .val 1
  data_transition_duration : Int := 1000
  data_autoplay : Option Int := none
  is_slide : Bool := true
  inner_html : String := "<h1>New Slide</h1>"
  notes : String := ""
  font_family : Option String := none
deriving DecidableEq, Repr

structure Deck where
  id : String
  title : String
  order : List String := []
  background_color : String := "#ffffff"
  data_transition_duration : Int := 1000
  data_width : Int := 1024
  data_height : Int := 768
  data_perspective : Int := 1000
  data_max_scale : Option Int := none
  data_min_scale : Option Int := none
  data_autoplay : Option Int := none
  has_overview : Bool := true
  overview_x : PyFloat := .val 0
  overview_y : PyFloat := .val 0
  overview_z : PyFloat := .val 0
  overview_scale : PyFloat := .val 1
  owner_id : String := ""
  thumbnail_url : Option String := none
deriving DecidableEq, Repr

/-- The document store: the decks and steps collections. -/
structure Repo where
  decks : List Deck
  steps : List StepDoc
deriving DecidableEq, Repr

/-- `Deck.get(deck_id)`. -/
def getDeck (repo : Repo) (deck_id : String) : Option Deck :=
  repo.decks.find? (fun d => d.id = deck_id)

/-- `Step.get(step_id)`. -/
def getStep (repo : Repo) (step_id : String) : Option StepDoc :=
  repo.steps.find? (fun s => s.id = step_id)

/-- `Step.find({"deck_id": deck_id}).to_list()`. -/
def findSteps (repo : Repo) (deck_id : String) : List StepDoc :=
  repo.steps.filter (fun s => s.deck_id = deck_id)

/-- `deck.save()`: replace the stored deck carrying this deck's id. -/
def saveDeck (repo : Repo) (d : Deck) : Repo :=
  { repo with decks := repo.decks.map (fun x => if x.id = d.id then d else x) }

/-- The dictionary `{str(step.id): step for step in steps}` looked up at
`step_id`: the last step with that id wins (dict-comprehension
override order). -/
def stepLookup (steps : List StepDoc) (sid : String) : Option StepDoc :=
  (steps.filter (fun st => st.id = sid)).getLast?

/-- `[step_dict[sid] for sid in deck.order if sid in step_dict]` —
deck_thumbnail.py line 26 / export.py line 23. -/
def orderedSteps (steps : List StepDoc) (order : List String) : List StepDoc :=
  order.filterMap (stepLookup steps)

/-!
## Thumbnail generator (`generate_deck_thumbnail`, deck_thumbnail.py 10–71)

The PIL raster drawing and the MinIO upload are external collaborators;
the embedding records the values the source computes and feeds to them
(overlay title, overlay text, canvas fill, object key, presigned URL)
in a `Thumb`, and performs the source's document-store write.
-/

/-- Model of `get_presigned_url(object_name, days)` of the external
asset store: a deterministic URL derived from the object key. -/
def presignUrl (object_name : String) (days : Nat) : String :=
  "presigned://" ++ object_name ++ "?days=" ++ toString days

/-- The values drawn / uploaded for one thumbnail. -/
structure Thumb where
  title : String
  text : String
  fill : String
  object_name : String
  url : String
deriving DecidableEq, Repr

/-- Thumbnail contents for deck and first resolved step
(deck_thumbnail.py lines 35, 44–53, 61, 65). -/
def mkThumb (deck : Deck) (deck_id : String) (first_step : StepDoc) : Thumb :=
  let text := pyTake 50 (pyStrip (stripTags first_step.inner_html))
  let title := pyTake 30 deck.title
  let fill := if deck.background_color.data.isEmpty then "#6366f1" else deck.background_color
  let object_name := "decks/" ++ deck_id ++ "/thumbnail.jpg"
  { title := title, text := text, fill := fill,
    object_name := object_name, url := presignUrl object_name 7 }

/-- `generate_deck_thumbnail(deck_id)` (deck_thumbnail.py 10–71).
Returns the produced thumbnail (`none` mirrors the source's `None`
returns) together with the document store after the deck update. -/
def generate_deck_thumbnail (repo : Repo) (deck_id : String) :
    Option Thumb × Repo :=
  match getDeck repo deck_id with
  | none => (none, repo)
  | some deck =>
    let steps := findSteps repo deck_id
    if steps.isEmpty then (none, repo)
    else
      match orderedSteps steps deck.order with
      | [] => (none, repo)
      | first_step :: _ =>
        let thumb := mkThumb deck deck_id first_step
        (some thumb, saveDeck repo { deck with thumbnail_url := some thumb.url })

/-!
## Export renderer (`export_deck_to_html`, export.py 11–180)

The img-tag regex `<img([^>]*?)src=["\']([^"\']+)["\']([^>]*?)>` is
embedded with Python `re` semantics: group 1 is lazy and cannot cross a
`>`, group 2 is a greedy non-empty run of non-quote characters closed
by either quote kind, group 3 runs lazily to the first `>`.
-/

/-- The single-quote character (avoiding a quoted-apostrophe literal). -/
def squote : Char := Char.ofNat 39

/-- The double-quote character. -/
def dquote : Char := Char.ofNat 34

/-- Membership in the regex class `["\']`. -/
def isQuote (c : Char) : Bool := (c == dquote) || (c == squote)

/-- Group 3 plus the closing `>`: `[^>]*?>` — the characters up to the
first `>`, failing if the input ends first. -/
def parseAfter : List Char → Option (List Char × List Char)
  | [] => none
  | c :: cs =>
    if c = '>' then some ([], cs)
    else (parseAfter cs).map (fun p => (c :: p.1, p.2))

/-- Attempt `src=["\']([^"\']+)["\']([^>]*?)>` at the current position:
returns (group 2, group 3, remainder).  Group 2 is a maximal non-empty
run of non-quote characters (a shorter run cannot be followed by a
quote, so greedy backtracking never helps), closed by either quote. -/
def tryRest : List Char → Option (List Char × List Char × List Char)
  | 's' :: 'r' :: 'c' :: '=' :: q :: t =>
    if isQuote q then
      match t.span (fun c => !(isQuote c)) with
      | (run, t2) =>
        if run.isEmpty then none
        else
          match t2 with
          | q2 :: t3 =>
            if isQuote q2 then (parseAfter t3).map (fun p => (run, p.1, p.2))
            else none
          | [] => none
    else none
  | _ => none

/-- The lazy group 1 `([^>]*?)` followed by the rest of the pattern:
grow group 1 one non-`>` character at a time, at each width first
trying the remainder of the pattern.  Returns
(group 1, group 2, group 3, remainder). -/
def findSrc : List Char → Option (List Char × List Char × List Char × List Char)
  | [] => none
  | c :: cs =>
    match tryRest (c :: cs) with
    | some (src, g3, rest) => some ([], src, g3, rest)
    | none =>
      if c = '>' then none
      else (findSrc cs).map (fun r => (c :: r.1, r.2))

/-- One regex match group record (`match.group(1..3)` and
`match.group(0)`). -/
structure ImgMatch where
  before : List Char
  src : List Char
  after : List Char
  whole : List Char
deriving DecidableEq, Repr

/-- Try the whole img pattern at the current position; on success
return the match and the remainder after it. -/
def matchImgAt : List Char → Option (ImgMatch × List Char)
  | '<' :: 'i' :: 'm' :: 'g' :: t =>
    match findSrc t with
    | some (g1, src, g3, rest) =>
      let consumed := 4 + (t.length - rest.length)
      some ({ before := g1, src := src, after := g3,
              whole := ('<' :: 'i' :: 'm' :: 'g' :: t).take consumed }, rest)
    | none => none
  | _ => none

/-- `re.finditer(img_pattern, html)`: leftmost non-overlapping matches;
after a match, scanning resumes past it; after a failed position,
scanning moves on by one character.  Fuel is the input length, which
suffices since every step consumes at least one character. -/
def findMatchesGo : Nat → List Char → List ImgMatch
  | 0, _ => []
  | _, [] => []
  | fuel + 1, c :: cs =>
    match matchImgAt (c :: cs) with
    | some (m, rest) => m :: findMatchesGo fuel rest
    | none => findMatchesGo fuel cs

/-- All img-tag matches of `html`, in order. -/
def findMatches (html : List Char) : List ImgMatch :=
  findMatchesGo html.length html

/-- Python `result.replace(old, new, 1)`: replace the first occurrence
of `old` (the whole string is prepended for an empty `old`). -/
def replaceFirst : List Char → List Char → List Char → List Char
  | [], pat, rep => if pat.isEmpty then rep else []
  | c :: cs, pat, rep =>
    if pat.isPrefixOf (c :: cs) then rep ++ (c :: cs).drop pat.length
    else c :: replaceFirst cs pat rep

/-- `base64.b64encode` (standard alphabet with padding) on a byte
list. -/
def b64alphabet : List Char :=
  "ABCDEFGHIJKLMNOPQRSTUVWXYZabcdefghijklmnopqrstuvwxyz0123456789+/".data

/-- The base64 digit for a 6-bit value. -/
def b64char (n : Nat) : Char := b64alphabet.getD n 'A'

/-- `base64.b64encode(data)` as characters. -/
def b64encode : List Nat → List Char
  | [] => []
  | [a] => [b64char (a / 4), b64char (a % 4 * 16), '=', '=']
  | [a, b] => [b64char (a / 4), b64char (a % 4 * 16 + b / 16), b64char (b % 16 * 4), '=']
  | a :: b :: c :: rest =>
    b64char (a / 4) :: b64char (a % 4 * 16 + b / 16) ::
    b64char (b % 16 * 4 + c / 64) :: b64char (c % 64) :: b64encode rest

/-- An `httpx` response: status, body bytes (`response.content`),
decoded body (`response.text`) and the `content-type` header. -/
structure HttpResponse where
  status_code : Nat
  content : List Nat
  text : String := ""
  content_type : Option String := none
deriving DecidableEq, Repr

/-- The asset-store heuristic of export.py line 49:
`'minio' in src.lower() or 'decks' in src`. -/
def isAssetStoreSrc (src : String) : Bool :=
  strIn "minio" (pyLower src) || strIn "decks" src

/-- The inlined replacement tag built at export.py line 63. -/
def inlineResult (m : ImgMatch) (resp : HttpResponse) : List Char :=
  "<img".data ++ m.before ++ "src=\"data:".data ++
  (resp.content_type.getD "image/jpeg").data ++ ";base64,".data ++
  b64encode resp.content ++ "\"".data ++ m.after ++ ">".data

/-- The kept-as-URL replacement tag with trailing comment built at
export.py line 66. -/
def largeResult (m : ImgMatch) : List Char :=
  "<img".data ++ m.before ++ "src=\"".data ++ m.src ++ "\"".data ++ m.after ++
  "><!-- Large image, copy to /assets folder -->".data

/-- `replace_img(match)` (export.py 43–71).  `fetch src = none` models
`client.get` raising (connection failure or timeout), swallowed by the
bare `except`.  The size test embeds
`len(img_data) / 1024 < 100` exactly (float division by 1024 is
exact). -/
def replace_img (fetch : String → Option HttpResponse) (m : ImgMatch) : List Char :=
  if isAssetStoreSrc (String.mk m.src) then
    match fetch (String.mk m.src) with
    | some response =>
      if response.status_code = 200 then
        let img_data := response.content
        let img_size_kb : ℚ := (img_data.length : ℚ) / 1024
        if img_size_kb < 100 then inlineResult m response
        else largeResult m
      else m.whole
    | none => m.whole
  else m.whole

/-- `process_images(html)` (export.py 38–80): list the matches, then
fold `result = result.replace(match.group(0), replacement, 1)` over
them. -/
def process_images (fetch : String → Option HttpResponse) (html : String) : String :=
  String.mk ((findMatches html.data).foldl
    (fun result m => replaceFirst result m.whole (replace_img fetch m)) html.data)

/-!
## Float and attribute formatting for the export document

Python's `str(float)` prints the shortest decimal that round-trips;
for the values with a short terminating decimal expansion (every value
the claims touch) the printing below coincides with it.  No claim
depends on digit output for other values.
-/

/-- Decimal digits of `0 ≤ q < 1`, stopping at 40 digits. -/
def decimalDigits : Nat → ℚ → String
  | 0, _ => ""
  | fuel + 1, q =>
    if q = 0 then ""
    else
      let d := (q * 10).floor
      toString d ++ decimalDigits fuel (q * 10 - (d : ℚ))

/-- `str(x)` for a Python float. -/
def pyFloatStr : PyFloat → String
  | .nan => "nan"
  | .inf => "inf"
  | .ninf => "-inf"
  | .val q =>
    if q.den = 1 then toString q.num ++ ".0"
    else
      let sign := if q < 0 then "-" else ""
      let a := |q|
      sign ++ toString a.floor ++ "." ++ decimalDigits 40 (a - (a.floor : ℚ))

/-- `str(i)` for a Python int. -/
def pyIntStr (n : Int) : String := toString n

/-- `{x or ''}` for an optional int (`None` and `0` are falsy). -/
def optIntOrEmpty (x : Option Int) : String :=
  match x with
  | some n => if n = 0 then "" else pyIntStr n
  | none => ""

/-- `'data-autoplay="' + str(v) + '"' if v else ''` for the optional
int autoplay fields. -/
def autoplayAttr (a : Option Int) : String :=
  match a with
  | some n => if n = 0 then "" else "data-autoplay=\"" ++ pyIntStr n ++ "\""
  | none => ""

/-- `f"font-family: {step.font_family};" if step.font_family else ""`
(export.py line 85; `None` and the empty string are falsy). -/
def fontStyle (step : StepDoc) : String :=
  match step.font_family with
  | some f => if f = "" then "" else "font-family: " ++ f ++ ";"
  | none => ""

/-- The step `font_family` values collected into `font_urls`
(export.py 26–29).  Python iterates a `set` in unspecified order; the
model fixes first-insertion order, a deterministic function of the
ordered steps (no claim depends on the iteration order). -/
def fontUrls (ordered_steps : List StepDoc) : List String :=
  (ordered_steps.filterMap (fun st =>
    match st.font_family with
    | some f => if f = "" then none else some f
    | none => none)).foldl (fun acc x => if x ∈ acc then acc else acc ++ [x]) []

/-- The `<link>` block (export.py 32–35). -/
def fontLinks (ordered_steps : List StepDoc) : String :=
  String.intercalate "\n"
    (((fontUrls ordered_steps).filter (fun u => "http".data.isPrefixOf u.data)).map
      (fun url => "    <link href=\"" ++ url ++ "\" rel=\"stylesheet\">"))

/-- The per-step `<div>` block (export.py 88–103), with the step's
content body run through `process_images`. -/
def stepDivHtml (fetch : String → Option HttpResponse) (step : StepDoc) : String :=
  let font_style := fontStyle step
  let processed_html := process_images fetch step.inner_html
  "\n    <div class=\"step" ++ (if step.is_slide then "slide" else "") ++ "\" \n" ++
  "         data-x=\"" ++ pyFloatStr step.data_x ++ "\" \n" ++
  "         data-y=\"" ++ pyFloatStr step.data_y ++ "\" \n" ++
  "         data-z=\"" ++ pyFloatStr step.data_z ++ "\"\n" ++
  "         data-rotate=\"" ++ pyFloatStr step.data_rotate ++ "\"\n" ++
  "         data-rotate-x=\"" ++ pyFloatStr step.data_rotate_x ++ "\"\n" ++
  "         data-rotate-y=\"" ++ pyFloatStr step.data_rotate_y ++ "\"\n" ++
  "         data-rotate-z=\"" ++ pyFloatStr step.data_rotate_z ++ "\"\n" ++
  "         data-scale=\"" ++ pyFloatStr step.data_scale ++ "\"\n" ++
  "         data-transition-duration=\"" ++ pyIntStr step.data_transition_duration ++ "\"\n" ++
  "         " ++ autoplayAttr step.data_autoplay ++ "\n" ++
  "         style=\"" ++ font_style ++ "\">\n" ++
  "        " ++ processed_html ++ "\n" ++
  "    </div>\n"

/-- The overview `<div>` block (export.py 106–115). -/
def overviewHtml (deck : Deck) : String :=
  if deck.has_overview then
    "\n    <div id=\"overview\" class=\"step\" \n" ++
    "         data-x=\"" ++ pyFloatStr deck.overview_x ++ "\" \n" ++
    "         data-y=\"" ++ pyFloatStr deck.overview_y ++ "\" \n" ++
    "         data-z=\"" ++ pyFloatStr deck.overview_z ++ "\"\n" ++
    "         data-scale=\"" ++ pyFloatStr deck.overview_scale ++ "\">\n" ++
    "    </div>\n"
  else ""

/-- The impress.js CDN URL fetched at export.py line 120. -/
def impressUrl : String :=
  "https://cdn.jsdelivr.net/npm/impress.js@2.0.0/js/impress.min.js"

/-- The runtime script body: the fetched text on HTTP 200, otherwise
the empty string (export.py 118–123). -/
def impressJs (fetch : String → Option HttpResponse) : String :=
  match fetch impressUrl with
  | some r => if r.status_code = 200 then r.text else ""
  | none => ""

/-- The complete document (export.py 126–178), assembled from the deck
and its ordered steps.  Literal braces of the CSS are written `\x7b`
and `\x7d`. -/
def exportAssemble (fetch : String → Option HttpResponse) (deck : Deck)
    (ordered_steps : List StepDoc) : String :=
  let font_links := fontLinks ordered_steps
  let steps_html := String.join (ordered_steps.map (stepDivHtml fetch))
  let overview_html := overviewHtml deck
  let impress_js := impressJs fetch
  "<!doctype html>\n<html lang=\"en\">\n<head>\n    <meta charset=\"utf-8\">\n" ++
  "    <meta name=\"viewport\" content=\"width=device-width, initial-scale=1.0\">\n" ++
  "    <title>" ++ deck.title ++ "</title>\n    \n" ++
  font_links ++ "\n    \n    <style>\n" ++
  "        body \x7b\n            font-family: sans-serif;\n            min-height: 740px;\n" ++
  "            background: " ++ deck.background_color ++ ";\n        \x7d\n        \n" ++
  "        .step \x7b\n            position: relative;\n" ++
  "            width: " ++ pyIntStr deck.data_width ++ "px;\n" ++
  "            height: " ++ pyIntStr deck.data_height ++ "px;\n" ++
  "            padding: 40px;\n            box-sizing: border-box;\n        \x7d\n        \n" ++
  "        .impress-enabled .step \x7b\n            margin: 0;\n            opacity: 0.3;\n" ++
  "            transition: opacity 1s;\n        \x7d\n        \n" ++
  "        .impress-enabled .step.active \x7b\n            opacity: 1;\n        \x7d\n" ++
  "    </style>\n</head>\n<body>\n    <div id=\"impress\" \n" ++
  "         data-width=\"" ++ pyIntStr deck.data_width ++ "\"\n" ++
  "         data-height=\"" ++ pyIntStr deck.data_height ++ "\"\n" ++
  "         data-max-scale=\"" ++ optIntOrEmpty deck.data_max_scale ++ "\"\n" ++
  "         data-min-scale=\"" ++ optIntOrEmpty deck.data_min_scale ++ "\"\n" ++
  "         data-perspective=\"" ++ pyIntStr deck.data_perspective ++ "\"\n" ++
  "         " ++ autoplayAttr deck.data_autoplay ++ ">\n" ++
  steps_html ++ "\n" ++ overview_html ++ "\n    </div>\n    \n    <script>\n" ++
  impress_js ++ "\n        impress().init();\n    </script>\n</body>\n</html>"

/-- `export_deck_to_html(deck_id)` (export.py 11–180).
`Except.error` mirrors `raise ValueError("Deck not found")`. -/
def export_deck_to_html (repo : Repo) (fetch : String → Option HttpResponse)
    (deck_id : String) : Except String String :=
  match getDeck repo deck_id with
  | none => Except.error "Deck not found"
  | some deck =>
    let steps := findSteps repo deck_id
    let ordered_steps := orderedSteps steps deck.order
    Except.ok (exportAssemble fetch deck ordered_steps)

/-!
## Step deletion (`delete_step`, steps.py 368–427)

The embedding covers the successful-authorization path (the
owner/share guard only decides between proceeding and an HTTP 403 and
is outside every claim); `none` models the 404 path for a missing step
and the (unguarded) missing-deck access.  The deferred
`schedule_thumbnail_regeneration` call mutates no document state; the
debounce behaviour itself is modelled in the Scheduler section.
-/

/-- `await step.delete()`: remove the document with this id. -/
def deleteStepDoc (repo : Repo) (step_id : String) : Repo :=
  { repo with steps := repo.steps.filter (fun s => s.id ≠ step_id) }

/-- The document-store effect of `delete_step(step_id)`
(steps.py 404–420): remove the id from the deck's `order` (first
occurrence), clear `thumbnail_url` when the remaining `order` is empty,
then delete the step. -/
def delete_step (repo : Repo) (step_id : String) : Option Repo :=
  match getStep repo step_id with
  | none => none
  | some step =>
    match getDeck repo step.deck_id with
    | none => none
    | some deck =>
      let repo1 :=
        if step.id ∈ deck.order then
          let deck1 := { deck with order := deck.order.erase step.id }
          let saved := saveDeck repo deck1
          if deck1.order.length > 0 then
            saved
          else
            saveDeck saved { deck1 with thumbnail_url := none }
        else repo
      some (deleteStepDoc repo1 step.id)

/-!
## Position clamping (`clamp_position` and its call sites,
steps.py 39–44, 142–144, 278–283)
-/

/-- `clamp_position(value)` (steps.py 39–44):
`0.0` for NaN, otherwise `max(-50000.0, min(50000.0, value))`. -/
def clamp_position (value : PyFloat) : PyFloat :=
  if value = .nan then .val 0
  else pyMax (.val (-50000)) (pyMin (.val 50000) value)

/-- The three translation fields of a step payload
(`StepCreate` / `StepUpdateSettings`). -/
structure PositionsPayload where
  data_x : Option PyFloat := none
  data_y : Option PyFloat := none
  data_z : Option PyFloat := none
deriving DecidableEq, Repr

/-- The translations stored by `create_step` (steps.py 142–152):
`clamp_position(payload.data_x or 0.0)` and likewise for y and z. -/
def create_step_positions (p : PositionsPayload) : PyFloat × PyFloat × PyFloat :=
  (clamp_position (pyOr p.data_x (.val 0)),
   clamp_position (pyOr p.data_y (.val 0)),
   clamp_position (pyOr p.data_z (.val 0)))

/-- The translations stored by `update_step_settings`
(steps.py 278–283): each provided field is clamped, absent fields keep
the stored value. -/
def update_step_positions (old : PyFloat × PyFloat × PyFloat)
    (p : PositionsPayload) : PyFloat × PyFloat × PyFloat :=
  (match p.data_x with | some v => clamp_position v | none => old.1,
   match p.data_y with | some v => clamp_position v | none => old.2.1,
   match p.data_z with | some v => clamp_position v | none => old.2.2)

/-- A float that is an exact value in `[-50000, 50000]`. -/
def InClampRange (x : PyFloat) : Prop :=
  ∃ q : ℚ, x = .val q ∧ -50000 ≤ q ∧ q ≤ 50000

instance (x : PyFloat) : Decidable (InClampRange x) :=
  match x with
  | .nan => .isFalse (by rintro ⟨q, h, -⟩; cases h)
  | .inf => .isFalse (by rintro ⟨q, h, -⟩; cases h)
  | .ninf => .isFalse (by rintro ⟨q, h, -⟩; cases h)
  | .val q =>
    if h : -50000 ≤ q ∧ q ≤ 50000 then .isTrue ⟨q, rfl, h.1, h.2⟩
    else .isFalse (by
      rintro ⟨r, hr, h1, h2⟩
      cases hr
      exact h ⟨h1, h2⟩)

/-!
## Regeneration scheduler
(`schedule_thumbnail_regeneration`, deck_thumbnail.py 73–89)

Cooperative single-loop asyncio semantics, per deck (the task table is
keyed by `deck_id` and an operation for one deck reads and writes only
that deck's slot, so the state below is the slot of the one deck under
consideration plus its execution history).

* `schedule_thumbnail_regeneration` runs with no internal suspension
  point: the `cancel` of the old task, `create_task`, and the table
  assignment are one atomic step of the loop.
* A pending task is always suspended when `schedule` runs (the loop is
  single-threaded), either in `asyncio.sleep(delay)` or at one of the
  awaits inside `generate_deck_thumbnail`.  `Task.cancel()` arranges a
  `CancelledError` at that suspension point, so a cancelled task never
  resumes its body: a cancelled timer never starts the generator, and
  a cancelled in-flight generation never reaches its remaining awaits
  (nothing in the body catches `CancelledError` across an await).
* When the body runs to completion it removes its own table entry in
  the same resumption (no await between `generate` returning and the
  `del`), so completion and table removal are one step.

`Phase.sleeping n` is a task that will leave `asyncio.sleep` after
`n + 1` more resumptions; `Phase.generating k` is a task suspended at
one of the generator's awaits that needs `k + 1` more resumptions to
finish (the generator's full path has `generateAwaits = 5` awaits:
`Deck.get`, `Step.find`, the upload, the presign, `deck.save`; the
task enters `generating (generateAwaits - 1)` suspended at the first
of them, and the final resumption also runs the synchronous tail and
deletes the table entry).
-/

/-- Await points inside `generate_deck_thumbnail` on its full path. -/
def generateAwaits : Nat := 5

inductive Phase where
  | sleeping (remaining : Nat)
  | generating (left : Nat)
deriving DecidableEq, Repr

structure SchedTask where
  id : Nat
  phase : Phase
deriving DecidableEq, Repr

/-- One deck's scheduler state: the `_thumbnail_tasks` slot, a fresh
task-id counter, and the history of generator executions (`started`
records tasks whose `generate_deck_thumbnail` call began executing;
`completed` records those whose call ran to completion). -/
structure SchedState where
  pending : Option SchedTask
  nextId : Nat
  started : List Nat
  completed : List Nat
deriving DecidableEq, Repr

def initState : SchedState :=
  { pending := none, nextId := 0, started := [], completed := [] }

/-- `schedule_thumbnail_regeneration(deck_id, delay)`
(deck_thumbnail.py 76–89): cancel the pending task if any (killing it
at its current suspension point), then install a fresh timer task. -/
def schedule (s : SchedState) (delay : Nat) : SchedState :=
  { pending := some { id := s.nextId, phase := .sleeping delay },
    nextId := s.nextId + 1,
    started := s.started,
    completed := s.completed }

/-- One event-loop resumption of the deck's pending task (identity when
no task is pending). -/
def stepTask (s : SchedState) : SchedState :=
  match s.pending with
  | none => s
  | some t =>
    match t.phase with
    | .sleeping (n + 1) => { s with pending := some { id := t.id, phase := .sleeping n } }
    | .sleeping 0 =>
      { s with pending := some { id := t.id, phase := .generating (generateAwaits - 1) },
               started := s.started ++ [t.id] }
    | .generating (k + 1) => { s with pending := some { id := t.id, phase := .generating k } }
    | .generating 0 => { s with pending := none, completed := s.completed ++ [t.id] }

/-- `n` event-loop resumptions. -/
def run : Nat → SchedState → SchedState
  | 0, s => s
  | n + 1, s => run n (stepTask s)

/-! ## Scheduler lemmas -/

theorem run_add (a b : Nat) (s : SchedState) : run (a + b) s = run b (run a s) := by
  induction a generalizing s with
  | zero => simp [run]
  | succ a ih =>
    have : a + 1 + b = (a + b) + 1 := by omega
    rw [this]
    simp only [run]
    exact ih (stepTask s)

theorem run_pending_none (n : Nat) (s : SchedState) (h : s.pending = none) :
    run n s = s := by
  induction n with
  | zero => rfl
  | succ n ih =>
    have hs : stepTask s = s := by
      unfold stepTask
      rw [h]
    simp only [run, hs]
    exact ih

theorem run_sleep_partial (k : Nat) :
    ∀ d, k ≤ d → ∀ i nx st cp,
    run k ⟨some ⟨i, .sleeping d⟩, nx, st, cp⟩ = ⟨some ⟨i, .sleeping (d - k)⟩, nx, st, cp⟩ := by
  induction k with
  | zero => intro d _ i nx st cp; rfl
  | succ k ih =>
    intro d hk i nx st cp
    obtain ⟨d', rfl⟩ : ∃ d', d = d' + 1 := ⟨d - 1, by omega⟩
    have h1 : stepTask ⟨some ⟨i, .sleeping (d' + 1)⟩, nx, st, cp⟩
        = ⟨some ⟨i, .sleeping d'⟩, nx, st, cp⟩ := rfl
    simp only [run, h1]
    have : d' + 1 - (k + 1) = d' - k := by omega
    rw [this] at *
    exact ih d' (by omega) i nx st cp

theorem run_sleep_fires (d : Nat) (i nx : Nat) (st cp : List Nat) :
    run (d + 1) ⟨some ⟨i, .sleeping d⟩, nx, st, cp⟩
      = ⟨some ⟨i, .generating (generateAwaits - 1)⟩, nx, st ++ [i], cp⟩ := by
  have := run_sleep_partial d d (le_refl d) i nx st cp
  rw [run_add d 1]
  rw [this]
  simp only [Nat.sub_self, run, stepTask]

theorem run_generating (g : Nat) :
    ∀ i nx st cp, run (g + 1) ⟨some ⟨i, .generating g⟩, nx, st, cp⟩
      = ⟨none, nx, st, cp ++ [i]⟩ := by
  induction g with
  | zero => intro i nx st cp; rfl
  | succ g ih =>
    intro i nx st cp
    have h1 : stepTask ⟨some ⟨i, .generating (g + 1)⟩, nx, st, cp⟩
        = ⟨some ⟨i, .generating g⟩, nx, st, cp⟩ := rfl
    simp only [run, h1]
    exact ih i nx st cp

theorem run_task_completes (d n : Nat) (hn : d + generateAwaits + 1 ≤ n)
    (i nx : Nat) (st cp : List Nat) :
    run n ⟨some ⟨i, .sleeping d⟩, nx, st, cp⟩ = ⟨none, nx, st ++ [i], cp ++ [i]⟩ := by
  obtain ⟨m, rfl⟩ : ∃ m, n = (d + 1) + generateAwaits + m := ⟨n - (d + 1) - generateAwaits, by omega⟩
  rw [show (d + 1) + generateAwaits + m = (d + 1) + (generateAwaits + m) by omega,
      run_add, run_sleep_fires]
  rw [show generateAwaits + m = ((generateAwaits - 1) + 1) + m by simp [generateAwaits],
      run_add, run_generating]
  exact run_pending_none m _ rfl

/--
C1: for a single deck on a single process, two `schedule_thumbnail_regeneration`
calls with the second arriving while the first task is still inside its
`asyncio.sleep` (after `k ≤ d1` event-loop resumptions) produce, once the
loop then runs undisturbed (`n ≥ d2 + generateAwaits + 1` resumptions),
exactly one execution of `generate_deck_thumbnail`: the one belonging to
the task of the latest call (id 1).  The first task (id 0) never starts
its body.
-/
theorem C1_debounce_single_execution (d1 d2 k n : Nat)
    (hk : k ≤ d1) (hn : d2 + generateAwaits + 1 ≤ n) :
    (run n (schedule (run k (schedule initState d1)) d2)).started = [1] ∧
    (run n (schedule (run k (schedule initState d1)) d2)).completed = [1] ∧
    (run n (schedule (run k (schedule initState d1)) d2)).pending = none ∧
    0 ∉ (run n (schedule (run k (schedule initState d1)) d2)).started := by
  have h1 : schedule initState d1 = ⟨some ⟨0, .sleeping d1⟩, 1, [], []⟩ := rfl
  rw [h1, run_sleep_partial k d1 hk 0 1 [] []]
  have h2 : schedule ⟨some ⟨0, .sleeping (d1 - k)⟩, 1, [], []⟩ d2
      = ⟨some ⟨1, .sleeping d2⟩, 2, [], []⟩ := rfl
  rw [h2, run_task_completes d2 n hn 1 2 [] []]
  refine ⟨rfl, rfl, rfl, by simp⟩

/-- C1 witness: delays of 2 ticks, the second request one tick after the
first, 8 resumptions of quiet running. -/
theorem C1_debounce_witness :
    (run 8 (schedule (run 1 (schedule initState 2)) 2)).started = [1] ∧
    (run 8 (schedule (run 1 (schedule initState 2)) 2)).completed = [1] ∧
    (run 8 (schedule (run 1 (schedule initState 2)) 2)).pending = none ∧
    0 ∉ (run 8 (schedule (run 1 (schedule initState 2)) 2)).started := by
  have h := C1_debounce_single_execution 2 2 1 8 (by decide) (by decide)
  exact h

/--
C2 counterexample: a schedule call that arrives while the previous
task's `generate_deck_thumbnail` call has already begun executing
(`started = [0]`, phase `generating`) cancels that task at its current
await point: the system then runs to quiescence and task 0 never
completes (`completed = [1]` only), contradicting the claim that an
in-flight generation always runs to completion.
-/
theorem C2_cancel_counterexample :
    (run 2 (schedule initState 1)).pending
        = some ⟨0, .generating (generateAwaits - 1)⟩ ∧
    (run 2 (schedule initState 1)).started = [0] ∧
    (run 8 (schedule (run 2 (schedule initState 1)) 1)).pending = none ∧
    (run 8 (schedule (run 2 (schedule initState 1)) 1)).started = [0, 1] ∧
    (run 8 (schedule (run 2 (schedule initState 1)) 1)).completed = [1] := by
  decide

/--
C2 amended: cancellation is not limited to the debounce timer.  A
`schedule_thumbnail_regeneration` call cancels the whole previously
scheduled task: if that task's `generate_deck_thumbnail` call is
in-flight (suspended at one of its awaits), the cancel kills it there,
and the cancelled generation never completes, no matter how long the
loop keeps running; the new call's own timer task replaces it in the
table.
-/
theorem C2_cancel_kills_inflight (s : SchedState) (d n i g : Nat)
    (_hp : s.pending = some ⟨i, .generating g⟩)
    (hc : i ∉ s.completed) (hi : i < s.nextId) :
    (schedule s d).pending = some ⟨s.nextId, .sleeping d⟩ ∧
    i ∉ (run n (schedule s d)).completed := by
  refine ⟨rfl, ?_⟩
  have key : ∀ m (u : SchedState), i ∉ u.completed →
      (∀ t, u.pending = some t → t.id ≠ i) → i ∉ (run m u).completed := by
    intro m
    induction m with
    | zero => intro u h1 _; exact h1
    | succ m ih =>
      intro u h1 h2
      simp only [run]
      apply ih
      · unfold stepTask
        cases hu : u.pending with
        | none => simpa using h1
        | some t =>
          have hne := h2 t hu
          cases t with
          | mk tid ph =>
            cases ph with
            | sleeping r =>
              cases r with
              | zero => simpa using h1
              | succ r => simpa using h1
            | generating k =>
              cases k with
              | zero =>
                simp only [List.mem_append, List.mem_singleton]
                rintro (h | h)
                · exact h1 h
                · exact hne h.symm
              | succ k => simpa using h1
      · unfold stepTask
        cases hu : u.pending with
        | none => intro t ht; rw [hu] at ht; simp at ht
        | some t =>
          have hne := h2 t hu
          cases t with
          | mk tid ph =>
            cases ph with
            | sleeping r =>
              cases r with
              | zero =>
                intro t' ht'
                simp only at ht'
                cases ht'
                exact hne
              | succ r =>
                intro t' ht'
                simp only at ht'
                cases ht'
                exact hne
            | generating k =>
              cases k with
              | zero => intro t' ht'; simp at ht'
              | succ k =>
                intro t' ht'
                simp only at ht'
                cases ht'
                exact hne
  apply key n (schedule s d) hc
  intro t ht
  simp only [schedule] at ht
  cases ht
  simp only
  omega

/-- C2 amended, witness: the concrete in-flight state of the
counterexample trace; the cancelled generation (task 0) is absent from
the completed list after 8 further resumptions. -/
theorem C2_cancel_kills_inflight_witness :
    (schedule (run 2 (schedule initState 1)) 1).pending = some ⟨1, .sleeping 1⟩ ∧
    0 ∉ (run 8 (schedule (run 2 (schedule initState 1)) 1)).completed := by
  have h := C2_cancel_kills_inflight (run 2 (schedule initState 1)) 1 8 0
    (generateAwaits - 1) (by decide) (by decide) (by decide)
  exact h

/-! ## Repository lemmas -/

theorem getDeck_saveDeck (repo : Repo) (d : Deck) (did : String) :
    getDeck (saveDeck repo d) did
      = (getDeck repo did).map (fun x => if x.id = d.id then d else x) := by
  unfold getDeck saveDeck
  simp only
  have hid : ∀ x : Deck, (if x.id = d.id then d else x).id = x.id := by
    intro x; by_cases h : x.id = d.id <;> simp [h]
  induction repo.decks with
  | nil => rfl
  | cons a l ih =>
    simp only [List.map_cons, List.find?_cons]
    by_cases had : a.id = did
    · rw [show decide ((if a.id = d.id then d else a).id = did) = true by
        rw [hid a]; simp [had]]
      rw [show decide (a.id = did) = true by simp [had]]
      simp
    · rw [show decide ((if a.id = d.id then d else a).id = did) = false by
        rw [hid a]; simp [had]]
      rw [show decide (a.id = did) = false by simp [had]]
      simpa using ih

theorem stepLookup_nil (sid : String) : stepLookup [] sid = none := rfl

theorem orderedSteps_nil (order : List String) : orderedSteps [] order = [] := by
  unfold orderedSteps
  induction order with
  | nil => rfl
  | cons a l ih => simp [List.filterMap_cons, stepLookup_nil, ih]

theorem orderedSteps_cons_ne (steps : List StepDoc) (sid : String) (rest : List String)
    (h : stepLookup steps sid = none) :
    orderedSteps steps (sid :: rest) = orderedSteps steps rest := by
  simp [orderedSteps, List.filterMap_cons, h]

theorem orderedSteps_ne_nil (steps : List StepDoc) (order : List String)
    (s : StepDoc) (tail : List StepDoc)
    (h : orderedSteps steps order = s :: tail) : steps ≠ [] := by
  intro hs
  rw [hs, orderedSteps_nil] at h
  exact List.noConfusion h

theorem generate_none_of_ordered_nil (repo : Repo) (deck_id : String) (deck : Deck)
    (hget : getDeck repo deck_id = some deck)
    (hord : orderedSteps (findSteps repo deck_id) deck.order = []) :
    generate_deck_thumbnail repo deck_id = (none, repo) := by
  unfold generate_deck_thumbnail
  rw [hget]
  by_cases hempty : (findSteps repo deck_id).isEmpty
  · simp [hempty]
  · simp [hempty, hord]

/-! ## C3: zero resolvable steps -/

/-- C3 counterexample data: a deck whose `order` carries a stale entry
`"ghost"` besides its only real step. -/
def c3Step : StepDoc := { id := "s1", deck_id := "d1", user_id := "u" }

def c3Deck : Deck :=
  { id := "d1", title := "T", order := ["s1", "ghost"],
    owner_id := "u", thumbnail_url := some "old-thumb" }

def c3Repo : Repo := { decks := [c3Deck], steps := [c3Step] }

/-- The store after `delete_step("s1")`: the stale entry keeps `order`
non-empty, so the thumbnail reference is not cleared. -/
def c3Deck' : Deck :=
  { id := "d1", title := "T", order := ["ghost"],
    owner_id := "u", thumbnail_url := some "old-thumb" }

def c3Repo' : Repo := { decks := [c3Deck'], steps := [] }

/--
C3 counterexample: deleting the last real step of a deck whose `order`
still holds a stale identifier leaves the deck with zero resolvable
steps (thumbnail generation returns no result and changes nothing), yet
the deletion path does **not** clear the existing thumbnail reference,
because its guard tests `len(deck.order) > 0` on the raw `order`, not
on resolvable steps.
-/
theorem C3_stale_order_counterexample :
    delete_step c3Repo "s1" = some c3Repo' ∧
    (generate_deck_thumbnail c3Repo' "d1").1 = none ∧
    (generate_deck_thumbnail c3Repo' "d1").2 = c3Repo' ∧
    getDeck c3Repo' "d1" = some c3Deck' ∧
    c3Deck'.thumbnail_url = some "old-thumb" := by
  decide

/--
C3 amended: for any deck with zero resolvable steps, thumbnail
generation returns no result and leaves the store untouched; and the
step-deletion path clears the deck's thumbnail reference exactly when
the deleted step's identifier was in `order` and its removal leaves
`order` empty (stale identifiers remaining in `order` prevent the
clearing).
-/
theorem C3_no_steps_amended :
    (∀ repo deck_id deck, getDeck repo deck_id = some deck →
      orderedSteps (findSteps repo deck_id) deck.order = [] →
      (generate_deck_thumbnail repo deck_id).1 = none ∧
      (generate_deck_thumbnail repo deck_id).2 = repo) ∧
    (∀ repo step_id step deck, getStep repo step_id = some step →
      getDeck repo step.deck_id = some deck →
      step.id ∈ deck.order →
      deck.order.erase step.id = [] →
      ∃ repo' deck', delete_step repo step_id = some repo' ∧
        getDeck repo' step.deck_id = some deck' ∧
        deck'.thumbnail_url = none) := by
  constructor
  · intro repo deck_id deck hget hord
    rw [generate_none_of_ordered_nil repo deck_id deck hget hord]
    exact ⟨rfl, rfl⟩
  · intro repo step_id step deck hstep hdeck hmem herase
    simp only [delete_step, hstep, hdeck, hmem, if_true, herase, List.length_nil,
      gt_iff_lt, lt_self_iff_false, if_false]
    refine ⟨_, { deck with order := [], thumbnail_url := none }, rfl, ?_, rfl⟩
    show getDeck (saveDeck (saveDeck repo _) _) step.deck_id = _
    rw [getDeck_saveDeck, getDeck_saveDeck, hdeck]
    simp

/-- C3 witness data: a deck whose single `order` entry is its single
step. -/
def c3wStep : StepDoc := { id := "s1", deck_id := "dw", user_id := "u" }

def c3wDeck : Deck :=
  { id := "dw", title := "W", order := ["s1"],
    owner_id := "u", thumbnail_url := some "thumb-w" }

def c3wRepo : Repo := { decks := [c3wDeck], steps := [c3wStep] }

/-- A deck with an unordered step only (zero resolvable steps). -/
def c3wDeck2 : Deck := { id := "dz", title := "Z", order := [], owner_id := "u" }

def c3wRepo2 : Repo :=
  { decks := [c3wDeck2], steps := [{ id := "sz", deck_id := "dz", user_id := "u" }] }

/-- C3 amended, witness: generation yields no result on the
zero-resolvable deck, and deleting the only ordered step clears the
thumbnail reference. -/
theorem C3_no_steps_witness :
    ((generate_deck_thumbnail c3wRepo2 "dz").1 = none ∧
      (generate_deck_thumbnail c3wRepo2 "dz").2 = c3wRepo2) ∧
    (∃ repo' deck', delete_step c3wRepo "s1" = some repo' ∧
      getDeck repo' "dw" = some deck' ∧
      deck'.thumbnail_url = none) := by
  constructor
  · exact C3_no_steps_amended.1 c3wRepo2 "dz" c3wDeck2 (by decide) (by decide)
  · exact C3_no_steps_amended.2 c3wRepo "s1" c3wStep c3wDeck
      (by decide) (by decide) (by decide) (by decide)

/-! ## C4: absent deck -/

/--
C4 counterexample: on an absent deck the export renderer does not
return "no result" — it raises (`ValueError("Deck not found")`,
embedded as `Except.error`), which propagates to its caller.
-/
theorem C4_export_raises_counterexample :
    export_deck_to_html { decks := [], steps := [] } (fun _ => none) "d"
      = Except.error "Deck not found" := by
  rfl

/--
C4 amended: when the referenced deck is absent, the thumbnail
generator returns "no result" (and leaves the store untouched), while
the export renderer instead raises `ValueError("Deck not found")`,
which propagates to its caller.
-/
theorem C4_absent_deck_amended (repo : Repo) (fetch : String → Option HttpResponse)
    (deck_id : String) (h : getDeck repo deck_id = none) :
    (generate_deck_thumbnail repo deck_id).1 = none ∧
    (generate_deck_thumbnail repo deck_id).2 = repo ∧
    export_deck_to_html repo fetch deck_id = Except.error "Deck not found" := by
  unfold generate_deck_thumbnail export_deck_to_html
  rw [h]
  exact ⟨rfl, rfl, rfl⟩

/-- C4 amended, witness: the empty store. -/
theorem C4_absent_deck_witness :
    (generate_deck_thumbnail { decks := [], steps := [] } "d").1 = none ∧
    (generate_deck_thumbnail { decks := [], steps := [] } "d").2
      = { decks := [], steps := [] } ∧
    export_deck_to_html { decks := [], steps := [] } (fun _ => none) "d"
      = Except.error "Deck not found" :=
  C4_absent_deck_amended { decks := [], steps := [] } (fun _ => none) "d" (by decide)

/-! ## C5: the 100 KB inlining boundary -/

/-- The float comparison `len(img_data) / 1024 < 100` holds exactly
when the byte count is below 102400. -/
theorem size_kb_lt_iff (n : Nat) : ((n : ℚ) / 1024 < 100) ↔ n < 102400 := by
  rw [div_lt_iff₀ (by norm_num : (0 : ℚ) < 1024)]
  norm_num

/--
C5: for an asset-store image reference successfully fetched with
HTTP 200, `replace_img` inlines the payload as a base64 data reference
exactly when the payload is strictly smaller than 100 KB
(102400 bytes); at 102400 bytes and above the original reference is
kept with the copy-to-assets comment.  The source's float test
`len(img_data) / 1024 < 100` is equivalent to the strict byte bound.
-/
theorem C5_inline_boundary (fetch : String → Option HttpResponse) (m : ImgMatch)
    (resp : HttpResponse)
    (hsrc : isAssetStoreSrc (String.mk m.src) = true)
    (hfetch : fetch (String.mk m.src) = some resp)
    (hstatus : resp.status_code = 200) :
    (resp.content.length < 102400 → replace_img fetch m = inlineResult m resp) ∧
    (102400 ≤ resp.content.length → replace_img fetch m = largeResult m) ∧
    (((resp.content.length : ℚ) / 1024 < 100) ↔ resp.content.length < 102400) := by
  have heval : replace_img fetch m =
      if ((resp.content.length : ℚ) / 1024 < 100) then inlineResult m resp
      else largeResult m := by
    unfold replace_img
    rw [hsrc, hfetch]
    simp [hstatus]
  refine ⟨?_, ?_, size_kb_lt_iff _⟩
  · intro hlt
    rw [heval, if_pos ((size_kb_lt_iff _).mpr hlt)]
  · intro hge
    rw [heval, if_neg (by rw [size_kb_lt_iff]; omega)]

/-- C5 witness data: one img-tag match whose source passes the
asset-store heuristic. -/
def c5m : ImgMatch :=
  { before := " ".data, src := "decks/a".data, after := [],
    whole := "<img src=\"decks/a\">".data }

/-- A 200 response carrying exactly 100 KB. -/
def c5respBoundary : HttpResponse :=
  { status_code := 200, content := List.replicate 102400 7 }

/-- A 200 response one byte below the boundary. -/
def c5respSmall : HttpResponse :=
  { status_code := 200, content := List.replicate 102399 7 }

def c5fetchBoundary : String → Option HttpResponse := fun _ => some c5respBoundary

def c5fetchSmall : String → Option HttpResponse := fun _ => some c5respSmall

/-- C5 witness: a payload of exactly 102400 bytes is kept as a URL
with the copy comment; one of 102399 bytes is inlined. -/
theorem C5_inline_boundary_witness :
    replace_img c5fetchBoundary c5m = largeResult c5m ∧
    replace_img c5fetchSmall c5m = inlineResult c5m c5respSmall := by
  have hb : c5respBoundary.content.length = 102400 := List.length_replicate _ _
  have hs : c5respSmall.content.length = 102399 := List.length_replicate _ _
  constructor
  · exact (C5_inline_boundary c5fetchBoundary c5m c5respBoundary
      (by decide) rfl rfl).2.1 (le_of_eq hb.symm)
  · exact (C5_inline_boundary c5fetchSmall c5m c5respSmall
      (by decide) rfl rfl).1 (by rw [hs]; norm_num)

/-! ## C7: untouched references and total export -/

theorem isPrefixOf_append_drop (p : List Char) :
    ∀ l, p.isPrefixOf l = true → p ++ l.drop p.length = l := by
  induction p with
  | nil => intro l _; simp
  | cons a p ih =>
    intro l h
    cases l with
    | nil => simp [List.isPrefixOf] at h
    | cons b l =>
      simp only [List.isPrefixOf, Bool.and_eq_true, beq_iff_eq] at h
      obtain ⟨rfl, h2⟩ := h
      simp only [List.cons_append, List.length_cons, List.drop_succ_cons]
      rw [ih l h2]

/-- `result.replace(old, old, 1)` leaves the string unchanged. -/
theorem replaceFirst_self (s pat : List Char) : replaceFirst s pat pat = s := by
  induction s with
  | nil =>
    unfold replaceFirst
    by_cases h : pat.isEmpty
    · rw [if_pos h]
      exact (List.isEmpty_iff.mp h).symm ▸ rfl
    · rw [if_neg h]
  | cons c cs ih =>
    unfold replaceFirst
    by_cases h : pat.isPrefixOf (c :: cs)
    · rw [if_pos h]
      exact isPrefixOf_append_drop pat (c :: cs) h
    · rw [if_neg h, ih]

/-- `replace_img` returns `match.group(0)` whenever the source fails
the asset-store heuristic or the fetch raises. -/
theorem replace_img_keeps_original (fetch : String → Option HttpResponse)
    (m : ImgMatch)
    (h : isAssetStoreSrc (String.mk m.src) = false ∨ fetch (String.mk m.src) = none) :
    replace_img fetch m = m.whole := by
  unfold replace_img
  rcases h with h | h
  · rw [h]
    simp
  · by_cases hsrc : isAssetStoreSrc (String.mk m.src)
    · rw [hsrc, h]
      simp
    · simp [hsrc]

/--
C7: if every image reference of a content body either fails the
asset-store heuristic or its fetch raises (failure or timeout), the
body passes through `process_images` completely unmodified; and for
any present deck the export as a whole completes with a document
(never an error), whatever the fetch behaviour.
-/
theorem C7_fetch_failure_untouched :
    (∀ (fetch : String → Option HttpResponse) (html : String),
      (∀ m ∈ findMatches html.data,
        isAssetStoreSrc (String.mk m.src) = false ∨ fetch (String.mk m.src) = none) →
      process_images fetch html = html) ∧
    (∀ (repo : Repo) (fetch : String → Option HttpResponse) (deck_id : String)
      (deck : Deck), getDeck repo deck_id = some deck →
      ∃ out, export_deck_to_html repo fetch deck_id = Except.ok out) := by
  constructor
  · intro fetch html hall
    unfold process_images
    have : ∀ (ms : List ImgMatch) (l : List Char),
        (∀ m ∈ ms, isAssetStoreSrc (String.mk m.src) = false ∨
          fetch (String.mk m.src) = none) →
        ms.foldl (fun result m => replaceFirst result m.whole (replace_img fetch m)) l = l := by
      intro ms
      induction ms with
      | nil => intro l _; rfl
      | cons m ms ih =>
        intro l hm
        simp only [List.foldl_cons]
        rw [replace_img_keeps_original fetch m (hm m (by simp)), replaceFirst_self]
        exact ih l (fun m' hm' => hm m' (by simp [hm']))
    rw [this (findMatches html.data) html.data hall]
  · intro repo fetch deck_id deck hget
    unfold export_deck_to_html
    rw [hget]
    exact ⟨_, rfl⟩

/-- C7 witness data: a body whose only image reference is not from the
asset store. -/
def c7html : String := "<p><img src=\"http://example.com/pic.png\"></p>"

def c7Deck : Deck := { id := "d7", title := "Seven", order := [] }

def c7Repo : Repo := { decks := [c7Deck], steps := [] }

/-- C7 witness: the non-asset reference passes through unmodified and
the export completes even though every fetch raises. -/
theorem C7_fetch_failure_witness :
    process_images (fun _ => none) c7html = c7html ∧
    ∃ out, export_deck_to_html c7Repo (fun _ => none) "d7" = Except.ok out := by
  constructor
  · exact C7_fetch_failure_untouched.1 (fun _ => none) c7html (by decide)
  · exact C7_fetch_failure_untouched.2 c7Repo (fun _ => none) "d7" c7Deck (by decide)

/-! ## The successful generation path -/

theorem generate_some (repo : Repo) (deck_id : String) (deck : Deck)
    (s : StepDoc) (tail : List StepDoc)
    (hget : getDeck repo deck_id = some deck)
    (hord : orderedSteps (findSteps repo deck_id) deck.order = s :: tail) :
    generate_deck_thumbnail repo deck_id
      = (some (mkThumb deck deck_id s),
         saveDeck repo { deck with thumbnail_url := some (mkThumb deck deck_id s).url }) := by
  have hne : findSteps repo deck_id ≠ [] := orderedSteps_ne_nil _ _ s tail hord
  have hemp : (findSteps repo deck_id).isEmpty = false := by
    cases h : findSteps repo deck_id with
    | nil => exact absurd h hne
    | cons a l => rfl
  simp [generate_deck_thumbnail, hget, hemp, hord]

/-! ## C6: stale order entries are skipped -/

/--
C6: an `order` entry with no matching step contributes nothing to the
ordered-step list (it is skipped without error), and when the leading
entry of a deck's `order` is such a stale identifier, generation
proceeds with the first entry that does resolve, producing the
thumbnail of that step.
-/
theorem C6_stale_entry_skipped :
    (∀ (steps : List StepDoc) (ghost : String) (rest : List String),
      stepLookup steps ghost = none →
      orderedSteps steps (ghost :: rest) = orderedSteps steps rest) ∧
    (∀ (repo : Repo) (deck_id : String) (deck : Deck) (ghost : String)
      (rest : List String) (s : StepDoc) (tail : List StepDoc),
      getDeck repo deck_id = some deck →
      deck.order = ghost :: rest →
      stepLookup (findSteps repo deck_id) ghost = none →
      orderedSteps (findSteps repo deck_id) rest = s :: tail →
      (generate_deck_thumbnail repo deck_id).1 = some (mkThumb deck deck_id s)) := by
  constructor
  · exact fun steps ghost rest h => orderedSteps_cons_ne steps ghost rest h
  · intro repo deck_id deck ghost rest s tail hget horder hghost hord
    have h : orderedSteps (findSteps repo deck_id) deck.order = s :: tail := by
      rw [horder, orderedSteps_cons_ne _ _ _ hghost, hord]
    rw [generate_some repo deck_id deck s tail hget h]

/-- C6 witness data: `order = ["ghost", "s1"]` with only `"s1"`
stored. -/
def c6Step : StepDoc :=
  { id := "s1", deck_id := "d6", user_id := "u", inner_html := "<p>Hi</p>" }

def c6Deck : Deck := { id := "d6", title := "Six", order := ["ghost", "s1"] }

def c6Repo : Repo := { decks := [c6Deck], steps := [c6Step] }

/-- C6 witness: the stale leading entry is dropped and the thumbnail is
generated from step `"s1"`. -/
theorem C6_stale_entry_witness :
    orderedSteps [c6Step] ("ghost" :: ["s1"]) = orderedSteps [c6Step] ["s1"] ∧
    (generate_deck_thumbnail c6Repo "d6").1 = some (mkThumb c6Deck "d6" c6Step) := by
  constructor
  · exact C6_stale_entry_skipped.1 [c6Step] "ghost" ["s1"] (by decide)
  · exact C6_stale_entry_skipped.2 c6Repo "d6" c6Deck "ghost" ["s1"] c6Step []
      (by decide) (by decide) (by decide) (by decide)

/-! ## C8: overlay text extraction -/

/-- C8 concrete data: the spec's example content. -/
def c8Step : StepDoc :=
  { id := "s8", deck_id := "d8", user_id := "u",
    inner_html := "<h1>Hello <b>World</b></h1>" }

def c8Deck : Deck := { id := "d8", title := "My Deck", order := ["s8"] }

def c8Repo : Repo := { decks := [c8Deck], steps := [c8Step] }

/-- C8 concrete data exercising both caps: a 40-character title and a
60-character text body. -/
def c8bStep : StepDoc :=
  { id := "s8b", deck_id := "d8b", user_id := "u",
    inner_html := "<p>xxxxxxxxxxxxxxxxxxxxxxxxxxxxxxxxxxxxxxxxxxxxxxxxxxxxxxxxxxxx</p>" }

def c8bDeck : Deck :=
  { id := "d8b", title := "AAAAAAAAAABBBBBBBBBBCCCCCCCCCCDDDDDDDDDD",
    order := ["s8b"] }

def c8bRepo : Repo := { decks := [c8bDeck], steps := [c8bStep] }

/--
C8: the thumbnail overlay text is the first resolved step's content
body with HTML tags stripped, whitespace-stripped, capped at 50
characters, and the overlay title is the deck title capped at 30
characters; in particular `"<h1>Hello <b>World</b></h1>"` yields
`"Hello World"`, a 60-character body is cut to its first 50
characters, and a 40-character title to its first 30.
-/
theorem C8_overlay_text :
    (∀ (repo : Repo) (deck_id : String) (deck : Deck) (s : StepDoc)
      (tail : List StepDoc),
      getDeck repo deck_id = some deck →
      orderedSteps (findSteps repo deck_id) deck.order = s :: tail →
      (generate_deck_thumbnail repo deck_id).1 = some (mkThumb deck deck_id s) ∧
      (mkThumb deck deck_id s).text = pyTake 50 (pyStrip (stripTags s.inner_html)) ∧
      (mkThumb deck deck_id s).title = pyTake 30 deck.title) ∧
    stripTags "<h1>Hello <b>World</b></h1>" = "Hello World" ∧
    ((generate_deck_thumbnail c8Repo "d8").1.map Thumb.text = some "Hello World" ∧
     (generate_deck_thumbnail c8Repo "d8").1.map Thumb.title = some "My Deck") ∧
    ((generate_deck_thumbnail c8bRepo "d8b").1.map Thumb.text
        = some "xxxxxxxxxxxxxxxxxxxxxxxxxxxxxxxxxxxxxxxxxxxxxxxxxx" ∧
     (generate_deck_thumbnail c8bRepo "d8b").1.map Thumb.title
        = some "AAAAAAAAAABBBBBBBBBBCCCCCCCCCC") := by
  refine ⟨?_, by decide, by decide, by decide⟩
  intro repo deck_id deck s tail hget hord
  exact ⟨by rw [generate_some repo deck_id deck s tail hget hord], rfl, rfl⟩

/-- C8 witness: the general clause applied to the concrete example
deck. -/
theorem C8_overlay_text_witness :
    (generate_deck_thumbnail c8Repo "d8").1 = some (mkThumb c8Deck "d8" c8Step) ∧
    (mkThumb c8Deck "d8" c8Step).text
      = pyTake 50 (pyStrip (stripTags c8Step.inner_html)) ∧
    (mkThumb c8Deck "d8" c8Step).title = pyTake 30 c8Deck.title :=
  C8_overlay_text.1 c8Repo "d8" c8Deck c8Step [] (by decide) (by decide)

/-! ## C9: the order list is authoritative -/

theorem stepLookup_filter_ne (l : List StepDoc) (badId sid : String)
    (h : sid ≠ badId) :
    stepLookup (l.filter (fun s => s.id ≠ badId)) sid = stepLookup l sid := by
  unfold stepLookup
  rw [List.filter_filter]
  congr 1
  apply List.filter_congr
  intro s _
  by_cases hs : s.id = sid
  · simp [hs, h]
  · simp [hs]

theorem findSteps_filter (repo : Repo) (deck_id badId : String) :
    findSteps { repo with steps := repo.steps.filter (fun s => s.id ≠ badId) } deck_id
      = (findSteps repo deck_id).filter (fun s => s.id ≠ badId) := by
  unfold findSteps
  simp only
  rw [List.filter_filter, List.filter_filter]
  apply List.filter_congr
  intro s _
  exact Bool.and_comm _ _

theorem orderedSteps_filter_ne (steps : List StepDoc) (order : List String)
    (badId : String) (h : badId ∉ order) :
    orderedSteps (steps.filter (fun s => s.id ≠ badId)) order
      = orderedSteps steps order := by
  unfold orderedSteps
  induction order with
  | nil => rfl
  | cons a l ih =>
    have ha : a ≠ badId := by rintro rfl; exact h (List.mem_cons_self _ _)
    have htail : badId ∉ l := fun hm => h (List.mem_cons_of_mem a hm)
    simp only [List.filterMap_cons]
    rw [stepLookup_filter_ne _ _ _ ha, ih htail]

/--
C9: the deck's `order` list is authoritative for both the thumbnail
generator and the export renderer — removing a step stored under the
deck's identifier whose id does not appear in `order` changes neither
the generated thumbnail nor the exported document; and when `order`
resolves to no steps, the generator returns no result even though
stored steps exist for the deck.
-/
theorem C9_order_is_authoritative :
    (∀ (repo : Repo) (deck_id : String) (deck : Deck) (badId : String)
      (fetch : String → Option HttpResponse),
      getDeck repo deck_id = some deck → badId ∉ deck.order →
      (generate_deck_thumbnail
          { repo with steps := repo.steps.filter (fun s => s.id ≠ badId) } deck_id).1
        = (generate_deck_thumbnail repo deck_id).1 ∧
      export_deck_to_html
          { repo with steps := repo.steps.filter (fun s => s.id ≠ badId) } fetch deck_id
        = export_deck_to_html repo fetch deck_id) ∧
    (∀ (repo : Repo) (deck_id : String) (deck : Deck),
      getDeck repo deck_id = some deck →
      findSteps repo deck_id ≠ [] →
      orderedSteps (findSteps repo deck_id) deck.order = [] →
      (generate_deck_thumbnail repo deck_id).1 = none) := by
  constructor
  · intro repo deck_id deck badId fetch hget hbad
    have hget2 : getDeck
        { repo with steps := repo.steps.filter (fun s => s.id ≠ badId) } deck_id
        = some deck := hget
    have hord2 : orderedSteps
        (findSteps { repo with steps := repo.steps.filter (fun s => s.id ≠ badId) } deck_id)
        deck.order = orderedSteps (findSteps repo deck_id) deck.order := by
      rw [findSteps_filter, orderedSteps_filter_ne _ _ _ hbad]
    constructor
    · cases hcase : orderedSteps (findSteps repo deck_id) deck.order with
      | nil =>
        rw [generate_none_of_ordered_nil _ deck_id deck hget2 (by rw [hord2, hcase]),
            generate_none_of_ordered_nil repo deck_id deck hget hcase]
      | cons s tail =>
        rw [generate_some _ deck_id deck s tail hget2 (by rw [hord2, hcase]),
            generate_some repo deck_id deck s tail hget hcase]
    · simp only [export_deck_to_html, hget2, hget]
      rw [hord2]
  · intro repo deck_id deck hget _hne hord
    rw [generate_none_of_ordered_nil repo deck_id deck hget hord]

/-- C9 witness data: deck `"d9"` orders only `"s1"`, but an extra step
`"sx"` is stored under the same deck id. -/
def c9Deck : Deck := { id := "d9", title := "Nine", order := ["s1"] }

def c9Step : StepDoc := { id := "s1", deck_id := "d9", user_id := "u" }

def c9Extra : StepDoc := { id := "sx", deck_id := "d9", user_id := "u" }

def c9Repo : Repo := { decks := [c9Deck], steps := [c9Step, c9Extra] }

/-- A deck with an empty `order` but a stored step. -/
def c9zDeck : Deck := { id := "dz9", title := "Zero", order := [] }

def c9zRepo : Repo :=
  { decks := [c9zDeck], steps := [{ id := "sz", deck_id := "dz9", user_id := "u" }] }

/-- C9 witness: dropping the unordered extra step changes neither the
thumbnail nor the export, and the deck with an empty `order` yields no
thumbnail despite its stored step. -/
theorem C9_order_is_authoritative_witness :
    ((generate_deck_thumbnail
        { c9Repo with steps := c9Repo.steps.filter (fun s => s.id ≠ "sx") } "d9").1
      = (generate_deck_thumbnail c9Repo "d9").1 ∧
     export_deck_to_html
        { c9Repo with steps := c9Repo.steps.filter (fun s => s.id ≠ "sx") }
        (fun _ => none) "d9"
      = export_deck_to_html c9Repo (fun _ => none) "d9") ∧
    (generate_deck_thumbnail c9zRepo "dz9").1 = none := by
  constructor
  · exact C9_order_is_authoritative.1 c9Repo "d9" c9Deck "sx" (fun _ => none)
      (by decide) (by decide)
  · exact C9_order_is_authoritative.2 c9zRepo "dz9" c9zDeck
      (by decide) (by decide) (by decide)

/-! ## C10: translation clamping -/

theorem clamp_position_in_range (v : PyFloat) : InClampRange (clamp_position v) := by
  cases v with
  | nan => decide
  | inf => decide
  | ninf => decide
  | val q =>
    have hnn : (PyFloat.val q) ≠ .nan := fun h => PyFloat.noConfusion h
    unfold clamp_position
    rw [if_neg hnn]
    by_cases h1 : q < 50000
    · have e1 : pyMin (.val 50000) (.val q) = .val q := by
        simp [pyMin, PyFloat.lt, h1]
      rw [e1]
      by_cases h2 : (-50000 : ℚ) < q
      · have e2 : pyMax (.val (-50000)) (.val q) = .val q := by
          simp [pyMax, PyFloat.lt, h2]
        rw [e2]
        exact ⟨q, rfl, le_of_lt h2, le_of_lt h1⟩
      · have e2 : pyMax (.val (-50000)) (.val q) = .val (-50000) := by
          simp [pyMax, PyFloat.lt, h2]
        rw [e2]
        exact ⟨-50000, rfl, le_refl _, by norm_num⟩
    · have e1 : pyMin (.val 50000) (.val q) = .val 50000 := by
        simp [pyMin, PyFloat.lt, h1]
      rw [e1]
      have e2 : pyMax (.val (-50000)) (.val 50000) = .val 50000 := by
        have : (-50000 : ℚ) < 50000 := by norm_num
        simp [pyMax, PyFloat.lt, this]
      rw [e2]
      exact ⟨50000, rfl, by norm_num, le_refl _⟩

/--
C10: `clamp_position` always produces a finite value inside
`[-50000, 50000]` and maps NaN to `0.0`; every translation stored by
the create endpoint is in that range, and the settings-update endpoint
keeps all three translations in range (clamping every provided field,
keeping stored in-range values for absent fields).
-/
theorem C10_translations_clamped :
    (∀ v, InClampRange (clamp_position v)) ∧
    clamp_position .nan = .val 0 ∧
    (∀ p : PositionsPayload,
      InClampRange (create_step_positions p).1 ∧
      InClampRange (create_step_positions p).2.1 ∧
      InClampRange (create_step_positions p).2.2) ∧
    (∀ (old : PyFloat × PyFloat × PyFloat) (p : PositionsPayload),
      InClampRange old.1 → InClampRange old.2.1 → InClampRange old.2.2 →
      InClampRange (update_step_positions old p).1 ∧
      InClampRange (update_step_positions old p).2.1 ∧
      InClampRange (update_step_positions old p).2.2) := by
  refine ⟨clamp_position_in_range, rfl, ?_, ?_⟩
  · intro p
    exact ⟨clamp_position_in_range _, clamp_position_in_range _,
      clamp_position_in_range _⟩
  · intro old p h1 h2 h3
    unfold update_step_positions
    refine ⟨?_, ?_, ?_⟩
    · cases p.data_x with
      | some v => exact clamp_position_in_range v
      | none => exact h1
    · cases p.data_y with
      | some v => exact clamp_position_in_range v
      | none => exact h2
    · cases p.data_z with
      | some v => exact clamp_position_in_range v
      | none => exact h3

/-- C10 witness: an overflowing value, a NaN, a payload mixing NaN and
overflow, and an update clamping a provided out-of-range field. -/
theorem C10_translations_witness :
    InClampRange (clamp_position (.val 123456)) ∧
    clamp_position .nan = .val 0 ∧
    (InClampRange (create_step_positions
        { data_x := some .nan, data_y := some (.val 987654), data_z := none }).1 ∧
     InClampRange (create_step_positions
        { data_x := some .nan, data_y := some (.val 987654), data_z := none }).2.1 ∧
     InClampRange (create_step_positions
        { data_x := some .nan, data_y := some (.val 987654), data_z := none }).2.2) ∧
    (InClampRange (update_step_positions (.val 1, .val 2, .val 3)
        { data_x := some (.val (-999999)) }).1 ∧
     InClampRange (update_step_positions (.val 1, .val 2, .val 3)
        { data_x := some (.val (-999999)) }).2.1 ∧
     InClampRange (update_step_positions (.val 1, .val 2, .val 3)
        { data_x := some (.val (-999999)) }).2.2) := by
  refine ⟨C10_translations_clamped.1 _, C10_translations_clamped.2.1,
    C10_translations_clamped.2.2.1 _, ?_⟩
  exact C10_translations_clamped.2.2.2 (.val 1, .val 2, .val 3)
    { data_x := some (.val (-999999)) } (by decide) (by decide) (by decide)

end Lumina

